import Mathlib

/-!
Verification development for the PUDL ETL package coordinator
(`src/pudl/etl_pkg.py`).  The Python module is shallowly embedded below:
raw configuration dictionaries become structures of `Option` fields
(`none` models an absent key, so the `try/except KeyError` defaulting
pattern becomes `Option.getD`), Python exceptions become an explicit
`PyError` value threaded through `Except`, and the external collaborators
(extract / transform / writer) are abstracted as function parameters whose
observable behaviour (tables produced, writer events) is all the
coordinator depends on.
-/

namespace Pudl

/-- Python exceptions raised (or raisable) by the coordinator module. -/
inductive PyError where
  | assertionError (msg : String)
  | keyError (key : String)
  | typeError (msg : String)
deriving Repr, DecidableEq

/-- Modelled from the spec: the module reads fixed universes of valid
tables / years / states and default table lists from `pudl.constants`
(`pc`), a file of this repository that is not under `src/`.  The spec
describes these only as "kind-specific fixed universes" and default
values ("all tables for this kind"), so the universes are carried as an
explicit parameter structure; `pcModel` below is one concrete instance
used for witnesses. -/
structure Constants where
  pudl_tables_eia860 : List String
  pudl_tables_eia923 : List String
  pudl_tables_ferc1 : List String
  eia860_pudl_tables : List String
  eia923_pudl_tables : List String
  ferc1_pudl_tables : List String
  working_years_eia860 : List Int
  working_years_eia923 : List Int
  cems_states : List String
  epacems_tables : String
deriving Repr, DecidableEq

/-- Modelled from the spec: a concrete instance of the constant registry
(small but structurally faithful: the defaulted table lists are members
of the corresponding universes, and the minimal EIA-923 companion subset
is in the EIA-923 universe). -/
def pcModel : Constants :=
  ⟨["boilers_eia860", "generators_eia860", "ownership_eia860", "plants_eia860",
    "utilities_eia860"],
   ["boiler_fuel_eia923", "fuel_receipts_costs_eia923", "generation_eia923",
    "generation_fuel_eia923"],
   ["fuel_ferc1", "plants_steam_ferc1", "plants_small_ferc1", "plants_hydro_ferc1"],
   ["boilers_eia860", "generators_eia860", "ownership_eia860", "plants_eia860",
    "utilities_eia860"],
   ["boiler_fuel_eia923", "fuel_receipts_costs_eia923", "generation_eia923",
    "generation_fuel_eia923"],
   ["fuel_ferc1", "plants_steam_ferc1", "plants_small_ferc1", "plants_hydro_ferc1",
    "plant_in_service_ferc1"],
   [2011, 2012, 2013, 2014, 2015, 2016, 2017, 2018],
   [2011, 2012, 2013, 2014, 2015, 2016, 2017, 2018],
   ["AL", "CO", "TX", "WY"],
   "hourly_emissions_epacems"⟩

/-! ## EIA input validation (`_validate_input_eia`) -/

/-- Raw EIA configuration mapping.  `none` = key absent.  The `debug`
key may be present in the raw mapping but is read by no branch of the
EIA validator (the Python function never accesses it). -/
structure EiaRaw where
  eia860_years : Option (List Int)
  eia860_tables : Option (List String)
  eia923_years : Option (List Int)
  eia923_tables : Option (List String)
  debug : Option Bool
deriving Repr, DecidableEq

/-- A fully populated EIA configuration (the dict built by
`_validate_input_eia` on its success path). -/
structure EiaConfig where
  eia860_years : List Int
  eia860_tables : List String
  eia923_years : List Int
  eia923_tables : List String
deriving Repr, DecidableEq

/-- The defaulting-and-inference phase of `_validate_input_eia`
(etl_pkg.py lines 39-73): missing keys default, then the bidirectional
year inference runs ("if we are only extracting 860, we also need to
pull in ... 923" forcing the minimal companion table subset, and "if
someone is trying to generate 923 without 860 ... forcing the same 860
years").  The fields are the entries of `eia_input_dict` as they stand
when the validation loops begin. -/
def eiaResolve (pc : Constants) (etl_params : EiaRaw) : EiaConfig :=
  let y860 := etl_params.eia860_years.getD []
  let t860 := etl_params.eia860_tables.getD pc.pudl_tables_eia860
  let y9230 := etl_params.eia923_years.getD []
  let t9230 := etl_params.eia923_tables.getD pc.pudl_tables_eia923
  let y923 := if y9230.isEmpty && !y860.isEmpty then y860 else y9230
  let t923 := if y9230.isEmpty && !y860.isEmpty then
      ["boiler_fuel_eia923", "generation_eia923"] else t9230
  let y860f := if y860.isEmpty && !y923.isEmpty then y923 else y860
  ⟨y860f, t860, y923, t923⟩

/-- Embedding of `_validate_input_eia` (etl_pkg.py lines 36-100): the
validation loops over the resolved dict (Python raises on the first
offending element), then the final not-requested check.  `.ok none`
models the Python `return None` ("not requested" signal); `.error`
models an uncaught `AssertionError`. -/
def _validate_input_eia (pc : Constants) (etl_params : EiaRaw) :
    Except PyError (Option EiaConfig) :=
  let r := eiaResolve pc etl_params
  match r.eia860_tables.find? (fun t => !(pc.eia860_pudl_tables.contains t)) with
  | some t => .error (.assertionError ("Unrecognized EIA 860 table: " ++ t))
  | none =>
    match r.eia923_tables.find? (fun t => !(pc.eia923_pudl_tables.contains t)) with
    | some t => .error (.assertionError ("Unrecogized EIA 923 table: " ++ t))
    | none =>
      match r.eia860_years.find? (fun y => !(pc.working_years_eia860.contains y)) with
      | some y => .error (.assertionError ("Unrecognized EIA 860 year: " ++ toString y))
      | none =>
        match r.eia923_years.find? (fun y => !(pc.working_years_eia923.contains y)) with
        | some y => .error (.assertionError ("Unrecognized EIA 923 year: " ++ toString y))
        | none =>
          if r.eia923_years.isEmpty && r.eia860_years.isEmpty then .ok none
          else .ok (some r)

/-! ## FERC Form 1 input validation (`_validate_input_ferc1`) -/

/-- Raw FERC1 configuration mapping (`none` = key absent).  The Python
default for `ferc1_years` is the one-element list `[None]`, so year
lists carry `Option Int` elements. -/
structure Ferc1Raw where
  ferc1_years : Option (List (Option Int))
  ferc1_tables : Option (List String)
  ferc1_testing : Option Bool
  debug : Option Bool
deriving Repr, DecidableEq

/-- A populated FERC1 configuration dict. -/
structure Ferc1Config where
  ferc1_years : List (Option Int)
  ferc1_tables : List String
  ferc1_testing : Bool
  debug : Bool
deriving Repr, DecidableEq

/-- Embedding of `_validate_input_ferc1` (etl_pkg.py lines 205-242).
`.ok none` models the Python `return {}` (an empty, falsy dict: the
"not requested" signal); `.error` an uncaught `AssertionError`. -/
def _validate_input_ferc1 (pc : Constants) (etl_params : Ferc1Raw) :
    Except PyError (Option Ferc1Config) :=
  let years := etl_params.ferc1_years.getD [Option.none]
  let tables := etl_params.ferc1_tables.getD pc.pudl_tables_ferc1
  let testing := etl_params.ferc1_testing.getD false
  let dbg := etl_params.debug.getD false
  let finish : Except PyError (Option Ferc1Config) :=
    if years.isEmpty then .ok none else .ok (some ⟨years, tables, testing, dbg⟩)
  if !dbg then
    match tables.find? (fun t => !(pc.ferc1_pudl_tables.contains t)) with
    | some t => .error (.assertionError ("Unrecognized FERC table: " ++ t ++ "."))
    | none => finish
  else finish

/-! ## EPA CEMS input validation (`_validate_input_partition`,
`_validate_input_epacems`) -/

/-- Raw EPA CEMS configuration mapping (`none` = key absent).  The
`partition` entry, when present, is a Python dict from table names to
partition field names; a Python dict with unique keys is modelled as an
association list.  A dict value may itself be Python `None`, hence
`Option String`. -/
structure EpacemsRaw where
  epacems_years : Option (List (Option Int))
  epacems_states : Option (List String)
  partition : Option (List (String × Option String))
deriving Repr, DecidableEq

/-- Embedding of Python `str.lower()` (kernel-evaluable character map
over the string's characters). -/
def strLower (s : String) : String := ⟨s.data.map Char.toLower⟩

/-- The key set of the raw EPA CEMS mapping (`etl_params_og.keys()`);
only membership is ever consulted. -/
def EpacemsRaw.keys (r : EpacemsRaw) : List String :=
  (if r.epacems_years.isSome then ["epacems_years"] else []) ++
  (if r.epacems_states.isSome then ["epacems_states"] else []) ++
  (if r.partition.isSome then ["partition"] else [])

/-- `d[k]` lookup on an association-list dict: `none` = `KeyError`. -/
def lookupA (d : List (String × Option String)) (k : String) :
    Option (Option String) :=
  (d.find? (fun p => p.1 == k)).map (fun p => p.2)

/-- `d[k] = v` assignment on an association-list dict (keys of a Python
dict are unique, so replacing every matching entry is the same as
replacing the one matching entry). -/
def setA (d : List (String × Option String)) (k : String) (v : Option String) :
    List (String × Option String) :=
  if d.any (fun p => p.1 == k) then
    d.map (fun p => if p.1 == k then (k, v) else p)
  else d ++ [(k, v)]

/-- The `for table in tables` loop body of `_validate_input_partition`:
`.ok false` models a `KeyError` on `partition_dict[table]` (caught by
the enclosing `except KeyError`), `.error` the `AssertionError`
("Partion not recognized") raised when the partition value is not a key
of the raw mapping (a `None` value is never a key, so it also raises). -/
def partitionCheckLoop (pdict : List (String × Option String))
    (keys : List String) : List String → Except PyError Bool
  | [] => .ok true
  | t :: rest =>
    match lookupA pdict t with
    | Option.none => .ok false
    | some (some s) =>
      if keys.contains s then partitionCheckLoop pdict keys rest
      else .error (.assertionError "Partion not recognized")
    | some Option.none => .error (.assertionError "Partion not recognized")

/-- Embedding of `_validate_input_partition` (etl_pkg.py lines 16-28).
When the raw mapping has no `partition` key, or a `KeyError` fires
inside the table loop, the `except KeyError` path assigns
`partition_dict['partition'] = None` and returns that dict. -/
def _validate_input_partition (etl_params_og : EpacemsRaw)
    (tables : List String) : Except PyError (List (String × Option String)) :=
  match etl_params_og.partition with
  | Option.none => .ok [("partition", Option.none)]
  | some pdict =>
    match partitionCheckLoop pdict etl_params_og.keys tables with
    | .error e => .error e
    | .ok true => .ok pdict
    | .ok false => .ok (setA pdict "partition" Option.none)

/-- A populated EPA CEMS configuration dict (its keys are exactly
`epacems_years`, `epacems_states`, `partition`). -/
structure EpacemsConfig where
  epacems_years : List (Option Int)
  epacems_states : List String
  partition : List (String × Option String)
deriving Repr, DecidableEq

/-- Embedding of `_validate_input_epacems` (etl_pkg.py lines 312-339).
`.ok none` models the Python `return None` ("not requested"). -/
def _validate_input_epacems (pc : Constants) (etl_params : EpacemsRaw) :
    Except PyError (Option EpacemsConfig) :=
  let years := etl_params.epacems_years.getD [Option.none]
  let states0 := etl_params.epacems_states.getD []
  -- "if states are All, then we grab all of the states from constants"
  let states := match states0 with
    | [] => states0
    | s :: _ => if strLower s == "all" then pc.cems_states else states0
  match _validate_input_partition etl_params [pc.epacems_tables] with
  | .error e => .error e
  | .ok pdict =>
    if pdict.isEmpty then
      .error (.assertionError
        ("No partition found for EPA CEMS. " ++
         "EPA CEMS requires either states or years as a partion"))
    else if years.isEmpty || states.isEmpty then .ok none
    else .ok (some ⟨years, states, pdict⟩)

/-! ## EPA IPM input validation (`_validate_input_epaipm`) -/

/-- Raw EPA IPM configuration mapping (`none` = key absent; the Python
default is the one-element list `[None]`). -/
structure EpaipmRaw where
  epaipm_tables : Option (List (Option String))
deriving Repr, DecidableEq

/-- The EPA IPM configuration dict.  As a Python value it is a dict
with the single key `epaipm_tables`, which is truthy (non-empty dict)
whatever the value stored under that key. -/
structure EpaipmConfig where
  epaipm_tables : List (Option String)
deriving Repr, DecidableEq

/-- Embedding of `_validate_input_epaipm` (etl_pkg.py lines 407-422).
The function is total: it can neither raise nor return a falsy value
(it always returns the one-key dict). -/
def _validate_input_epaipm (etl_params : EpaipmRaw) : EpaipmConfig :=
  ⟨etl_params.epaipm_tables.getD [Option.none]⟩

/-- Python truthiness of the dict `_validate_input_epaipm` returns: a
dict with the single key `epaipm_tables` is truthy (a non-empty dict)
whatever value it stores, so the bundle validator's `if etl_params:`
keep-check always keeps it — it is never the falsy skip signal. -/
def EpaipmConfig.truthy (_ : EpaipmConfig) : Bool := true

/-! ## Glue input validation (`_validate_input_glue`) -/

/-- Raw glue configuration mapping (`none` = key absent). -/
structure GlueRaw where
  ferc1 : Option Bool
  eia : Option Bool
deriving Repr, DecidableEq

/-- A populated glue configuration dict. -/
structure GlueConfig where
  ferc1 : Bool
  eia : Bool
deriving Repr, DecidableEq

/-- Embedding of `_validate_input_glue` (etl_pkg.py lines 494-508).
`none` models the Python `return {}` (empty, falsy dict). -/
def _validate_input_glue (etl_params : GlueRaw) : Option GlueConfig :=
  let f := etl_params.ferc1.getD false
  let e := etl_params.eia.getD false
  if !f && !e then none else some ⟨f, e⟩

/-! ## Streaming EPA CEMS adapter (`_etl_epacems_part`, `_etl_epacems_pkg`)

The writer collaborator is observed through events.  Modelled from the
spec: the scoped streaming writer session (`pudl.load.BulkCopyPkg`, a
file of this repository not under `src/`) supports `open(table_name)`,
`session.add(chunk)` and guaranteed-release `close()`/abort semantics;
the `with` statement in `_etl_epacems_part` runs the release on both the
success path and the exception path before the exception propagates. -/

/-- One partition key of the EPA CEMS loop: an element of the list the
partition dimension names — a year (possibly Python `None`, from the
defaulted year list) or a state string. -/
inductive PartKey where
  | year (y : Option Int)
  | state (s : String)
deriving Repr, DecidableEq

/-- Rendering of a partition key inside the f-string
`f"hourly_emissions_epacems_{part}"` (Python renders `None` as
`"None"`). -/
def partToStr : PartKey → String
  | .year Option.none => "None"
  | .year (some n) => toString n
  | .state s => s

/-- Observable writer-session events, over an abstract chunk type. -/
inductive WEvent (χ : Type) where
  | openS (tn : String)
  | addC (c : χ)
  | releaseS (tn : String)
deriving Repr, DecidableEq

/-- Event is a session open. -/
def isOpenEv {χ : Type} : WEvent χ → Bool
  | .openS _ => true
  | _ => false

/-- Event is a session release. -/
def isReleaseEv {χ : Type} : WEvent χ → Bool
  | .releaseS _ => true
  | _ => false

/-- The lazy transformed sub-chunk sequence for one partition is the
finite list of outcomes its iteration produces: each step yields a dict
of chunks (its `.values()`) or raises; nothing after the first raise is
ever produced. -/
def firstError {χ : Type} : List (Except PyError (List χ)) → Option PyError
  | [] => Option.none
  | .error e :: _ => some e
  | .ok _ :: rest => firstError rest

/-- `add` events emitted while iterating the sub-chunk sequence
(iteration stops at the first raise). -/
def chunkAdds {χ : Type} : List (Except PyError (List χ)) → List (WEvent χ)
  | [] => []
  | .error _ :: _ => []
  | .ok cs :: rest => cs.map WEvent.addC ++ chunkAdds rest

/-- Embedding of `_etl_epacems_part` (etl_pkg.py lines 342-369).
`chunkSeq` is the outcome sequence of the extraction+transformation
collaborators for this partition (they are lazy generators, so their
errors surface while the `with` block iterates them).  Returns the
writer-event trace and the Python result: the per-partition table name
on success, the propagated error otherwise.  The `with` statement
semantics put the session release at the end of the trace on both
paths. -/
def _etl_epacems_part {χ : Type} (part : PartKey)
    (chunkSeq : List (Except PyError (List χ))) :
    List (WEvent χ) × Except PyError String :=
  let tn := "hourly_emissions_epacems_" ++ partToStr part
  ([WEvent.openS tn] ++ chunkAdds chunkSeq ++ [WEvent.releaseS tn],
   match firstError chunkSeq with
   | some e => .error e
   | Option.none => .ok tn)

/-- The loop body reassignment `if part in epacems_years:
epacems_years = [part]` (line 385-386; a state key is never equal to an
entry of the year list, as in Python where a str never equals an int). -/
def narrowYears (part : PartKey) (years : List (Option Int)) :
    List (Option Int) :=
  match part with
  | .year y => if years.contains y then [y] else years
  | .state _ => years

/-- The loop body reassignment `if part in epacems_states:
epacems_states = [part]` (lines 387-388). -/
def narrowStates (part : PartKey) (states : List String) : List String :=
  match part with
  | .state s => if states.contains s then [s] else states
  | .year _ => states

/-- The `for part in ...` loop of `_etl_epacems_pkg` (lines 384-391),
carrying the loop's reassignments of `epacems_years` / `epacems_states`
across iterations.  `collab` yields the sub-chunk outcomes of
`extract(epacems_years=[part], states=epacems_states)` composed with
`transform_pkg`.  Returns the accumulated writer trace and the first
uncaught error, if any. -/
def epacemsPartsLoop {χ : Type}
    (collab : PartKey → List String → List (Except PyError (List χ))) :
    List PartKey → List (Option Int) → List String →
    List (WEvent χ) × Option PyError
  | [], _, _ => ([], Option.none)
  | part :: rest, years, states =>
    let states2 := narrowStates part states
    let pr := _etl_epacems_part part (collab part states2)
    match pr.2 with
    | .error e => (pr.1, some e)
    | .ok _ =>
      let r := epacemsPartsLoop collab rest (narrowYears part years) states2
      (pr.1 ++ r.1, r.2)

/-- The partition-key list of `for part in epacems_dict[...]` (line
384): the validated dict has exactly the keys `epacems_years`,
`epacems_states` and `partition` (iterating the partition dict itself
yields its keys); any other field name raises `KeyError`
(`none` here). -/
def epacemsParts (cfg : EpacemsConfig) (field : String) :
    Option (List PartKey) :=
  if field == "epacems_years" then some (cfg.epacems_years.map PartKey.year)
  else if field == "epacems_states" then
    some (cfg.epacems_states.map PartKey.state)
  else if field == "partition" then
    some (cfg.partition.map (fun p => PartKey.state p.1))
  else Option.none

/-- Embedding of `_etl_epacems_pkg` (etl_pkg.py lines 372-400).
When the validator returns `None`, line 375 subscripts `None` and
raises `TypeError`; the partition-dimension lookup
`epacems_partition[pc.epacems_tables]` and the `epacems_dict[...]`
lookup raise `KeyError` when their key is missing (a dict value of
Python `None` is not a key of `epacems_dict` either).  When the named
dimension is `partition` itself, iterating that dict yields its keys.
After the loop the function always reports the single aggregate table
name. -/
def _etl_epacems_pkg {χ : Type} (pc : Constants)
    (collab : PartKey → List String → List (Except PyError (List χ)))
    (etl_params : EpacemsRaw) : List (WEvent χ) × Except PyError (List String) :=
  match _validate_input_epacems pc etl_params with
  | .error e => ([], .error e)
  | .ok Option.none => ([], .error (.typeError "NoneType object is not subscriptable"))
  | .ok (some cfg) =>
    if cfg.epacems_states.isEmpty || cfg.epacems_years.isEmpty then ([], .ok [])
    else
      match lookupA cfg.partition pc.epacems_tables with
      | Option.none => ([], .error (.keyError pc.epacems_tables))
      | some Option.none => ([], .error (.keyError "None"))
      | some (some field) =>
        match epacemsParts cfg field with
        | Option.none => ([], .error (.keyError field))
        | some parts =>
          let r := epacemsPartsLoop collab parts cfg.epacems_years cfg.epacems_states
          match r.2 with
          | some e => (r.1, .error e)
          | Option.none => (r.1, .ok ["hourly_emissions_epacems"])

/-! ## Bulk-write events and the non-streaming adapters -/

/-- One `pudl.load.dict_dump(dfs, label, ...)` call, observed as its
label and the table names (dict keys) written. -/
inductive DumpEvent where
  | dump (label : String) (tables : List String)
deriving Repr, DecidableEq

/-- Embedding of `_load_static_tables_eia` (lines 103-150): the static
dict keys are literal in the source; the dataframe contents (drawn from
constants) are not observable through the coordinator contract. -/
def _load_static_tables_eia : List DumpEvent × List String :=
  ([DumpEvent.dump "Static EIA Tables"
      ["fuel_type_eia923", "prime_movers_eia923", "fuel_type_aer_eia923",
       "energy_source_eia923", "transport_modes_eia923"]],
   ["fuel_type_eia923", "prime_movers_eia923", "fuel_type_aer_eia923",
    "energy_source_eia923", "transport_modes_eia923"])

/-- Embedding of `_load_static_tables_ferc` (lines 245-277). -/
def _load_static_tables_ferc : List DumpEvent × List String :=
  ([DumpEvent.dump "Static FERC Tables" ["ferc_accounts", "ferc_depreciation_lines"]],
   ["ferc_accounts", "ferc_depreciation_lines"])

/-- Embedding of `_load_static_tables_epaipm` (lines 425-451). -/
def _load_static_tables_epaipm : List DumpEvent × List String :=
  ([DumpEvent.dump "Static IPM Tables" ["regions_entity_epaipm"]],
   ["regions_entity_epaipm"])

/-- `eia_transformed_dfs = eia860.copy(); .update(eia923)`: the merged
dict keys are the 860 keys in order followed by the 923 keys not
already present. -/
def dictUpdateKeys (a b : List String) : List String :=
  a ++ b.filter (fun k => !(a.contains k))

/-- Embedding of `_etl_eia_pkg` (etl_pkg.py lines 153-198).  The
extraction+transformation collaborators for the two forms are observed
as the table-name keys they produce from (tables, years); the
cross-form harvesting pass `pudl.transform.eia.transform` is observed
as the pair (entity table keys, transformed table keys) it produces
from the merged keys and the two year lists.  A `None` from the
validator is subscripted on line 155 and raises `TypeError`. -/
def _etl_eia_pkg (pc : Constants)
    (eia923T : List String → List Int → List String)
    (eia860T : List String → List Int → List String)
    (harvest : List String → List Int → List Int → List String × List String)
    (etl_params : EiaRaw) : List DumpEvent × Except PyError (List String) :=
  match _validate_input_eia pc etl_params with
  | .error e => ([], .error e)
  | .ok Option.none => ([], .error (.typeError "NoneType object is not subscriptable"))
  | .ok (some cfg) =>
    if (cfg.eia923_tables.isEmpty || cfg.eia923_years.isEmpty) &&
       (cfg.eia860_tables.isEmpty || cfg.eia860_years.isEmpty) then
      ([], .ok [])
    else
      let stat := _load_static_tables_eia
      let k923 := eia923T cfg.eia923_tables cfg.eia923_years
      let k860 := eia860T cfg.eia860_tables cfg.eia860_years
      let merged := dictUpdateKeys k860 k923
      let h := harvest merged cfg.eia923_years cfg.eia860_years
      (stat.1 ++ [DumpEvent.dump "Entities" h.1, DumpEvent.dump "EIA" h.2],
       .ok (h.2 ++ h.1 ++ stat.2))

/-- Embedding of `_etl_ferc1_pkg` (etl_pkg.py lines 280-305).  The
extraction+transformation collaborator is observed as the table-name
keys it produces from (tables, years, testing).  A `{}` from the
validator is subscripted on line 283 and raises `KeyError`. -/
def _etl_ferc1_pkg (pc : Constants)
    (ferc1Collab : List String → List (Option Int) → Bool → List String)
    (etl_params : Ferc1Raw) : List DumpEvent × Except PyError (List String) :=
  match _validate_input_ferc1 pc etl_params with
  | .error e => ([], .error e)
  | .ok Option.none => ([], .error (.keyError "ferc1_years"))
  | .ok (some cfg) =>
    if cfg.ferc1_years.isEmpty || cfg.ferc1_tables.isEmpty then ([], .ok [])
    else
      let stat := _load_static_tables_ferc
      let transformed := ferc1Collab cfg.ferc1_tables cfg.ferc1_years cfg.ferc1_testing
      (stat.1 ++ [DumpEvent.dump "FERC 1" transformed],
       .ok (transformed ++ stat.2))

/-- The Python value returned by `_etl_glue`: either the string
sentinel on line 520 or a list of table names. -/
inductive GlueResult where
  | sentinel (s : String)
  | tables (ts : List String)
deriving Repr, DecidableEq

/-- Embedding of `_etl_glue` (etl_pkg.py lines 511-531).  When the
validator returns the empty dict (both flags false), line 517
subscripts `{}` with `'ferc1'` and raises `KeyError` — so the string
sentinel on line 520 is reachable only from a validated dict in which
both flags are false, which the validator never produces.  The glue
collaborator `pudl.glue.ferc1_eia.glue` is observed as the table-name
keys it produces from the two flags. -/
def _etl_glue (glueCollab : Bool → Bool → List String) (etl_params : GlueRaw) :
    List DumpEvent × Except PyError GlueResult :=
  match _validate_input_glue etl_params with
  | Option.none => ([], .error (.keyError "ferc1"))
  | some g =>
    if !g.eia && !g.ferc1 then ([], .ok (.sentinel "ahhhh this is not werking"))
    else
      let ts := glueCollab g.ferc1 g.eia
      ([DumpEvent.dump "Glue" ts], .ok (.tables ts))

/-! ## Package coordinator dispatch (`etl_pkg`) -/

/-- The `for dataset_dict in pkg_settings['datasets']` loop of
`etl_pkg` (lines 612-648), abstracted over the per-kind adapters (each
observed as the table list it returns).  A package's dataset entries
are the pairs (kind key, raw params) in the insertion order of the
configuration.  Accumulates the trace of dispatched kinds and the
aggregated tables (`if tbls: tables.extend(tbls)` — extending with an
empty list is a no-op, so plain append is equivalent). -/
def etlPkgLoop {α : Type}
    (eiaF ferc1F epacemsF glueF epaipmF : α → Except PyError (List String)) :
    List (String × α) → List String → List String →
    List String × Except PyError (List String)
  | [], tr, tbls => (tr, .ok tbls)
  | (kind, p) :: rest, tr, tbls =>
    if kind == "eia" || kind == "ferc1" || kind == "epacems" ||
       kind == "glue" || kind == "epaipm" then
      let step : Except PyError (List String) :=
        if kind == "eia" then eiaF p
        else if kind == "ferc1" then ferc1F p
        else if kind == "epacems" then epacemsF p
        else if kind == "glue" then glueF p
        else epaipmF p
      match step with
      | .error e => (tr ++ [kind], .error e)
      | .ok tbls2 => etlPkgLoop eiaF ferc1F epacemsF glueF epaipmF rest
          (tr ++ [kind]) (tbls ++ tbls2)
    else
      (tr, .error (.assertionError ("Invalid dataset " ++ kind ++ " found in input.")))

/-- Embedding of the dispatch structure of `etl_pkg` (etl_pkg.py lines
590-649): datasets are processed by iterating `pkg_settings['datasets']`
in configuration order, dispatching on the dataset key through the
`if/elif` chain (`eia`, `ferc1`, `epacems`, `glue`, `epaipm`, else a
fatal `AssertionError`).  Returns the trace of dispatched kinds and the
aggregated table list. -/
def etl_pkg {α : Type}
    (eiaF ferc1F epacemsF glueF epaipmF : α → Except PyError (List String))
    (datasets : List (String × α)) : List String × Except PyError (List String) :=
  etlPkgLoop eiaF ferc1F epacemsF glueF epaipmF datasets [] []

/-- Decidable equality on `Except`, for evaluating embeddings on
concrete inputs. -/
instance exceptDecidableEq {ε α : Type} [DecidableEq ε] [DecidableEq α] :
    DecidableEq (Except ε α)
  | .error a, .error b =>
    decidable_of_iff (a = b) ⟨fun h => by rw [h], fun h => by injection h⟩
  | .error _, .ok _ => .isFalse (fun h => Except.noConfusion h)
  | .ok _, .error _ => .isFalse (fun h => Except.noConfusion h)
  | .ok a, .ok b =>
    decidable_of_iff (a = b) ⟨fun h => by rw [h], fun h => by injection h⟩

/-! ## Helper lemmas -/

lemma chunkAdds_filter_open {χ : Type} (cs : List (Except PyError (List χ))) :
    (chunkAdds cs).filter isOpenEv = [] := by
  induction cs with
  | nil => rfl
  | cons c rest ih =>
    cases c with
    | error e => rfl
    | ok xs =>
      simp only [chunkAdds, List.filter_append, ih, List.append_nil]
      simp [List.filter_eq_nil_iff, isOpenEv]

lemma chunkAdds_filter_release {χ : Type} (cs : List (Except PyError (List χ))) :
    (chunkAdds cs).filter isReleaseEv = [] := by
  induction cs with
  | nil => rfl
  | cons c rest ih =>
    cases c with
    | error e => rfl
    | ok xs =>
      simp only [chunkAdds, List.filter_append, ih, List.append_nil]
      simp [List.filter_eq_nil_iff, isReleaseEv]

lemma firstError_mem {χ : Type} (cs : List (Except PyError (List χ))) (e : PyError)
    (h : firstError cs = some e) : Except.error e ∈ cs := by
  induction cs with
  | nil => simp [firstError] at h
  | cons c rest ih =>
    cases c with
    | error e2 =>
      simp only [firstError, Option.some.injEq] at h
      subst h; exact List.mem_cons_self _ _
    | ok xs => exact List.mem_cons_of_mem _ (ih h)

lemma setA_ne_nil (d : List (String × Option String)) (k : String)
    (v : Option String) : setA d k v ≠ [] := by
  unfold setA
  split
  · intro h
    have := congrArg List.length h
    simp at this
    rcases this with ⟨⟩
    simp at *
  · simp

lemma partitionCheckLoop_error_msg (pdict : List (String × Option String))
    (keys : List String) (ts : List String) (e : PyError)
    (h : partitionCheckLoop pdict keys ts = .error e) :
    e = .assertionError "Partion not recognized" := by
  induction ts with
  | nil => simp [partitionCheckLoop] at h
  | cons t rest ih =>
    unfold partitionCheckLoop at h
    cases hl : lookupA pdict t with
    | none => rw [hl] at h; simp at h
    | some v =>
      rw [hl] at h
      cases v with
      | none => simp at h; exact h.symm
      | some s =>
        simp at h
        split at h
        · exact ih h
        · simp at h; exact h.symm

lemma validate_input_partition_error_msg (og : EpacemsRaw) (ts : List String)
    (e : PyError) (h : _validate_input_partition og ts = .error e) :
    e = .assertionError "Partion not recognized" := by
  unfold _validate_input_partition at h
  cases hp : og.partition with
  | none => rw [hp] at h; simp at h
  | some pdict =>
    rw [hp] at h
    dsimp only at h
    cases hc : partitionCheckLoop pdict og.keys ts with
    | error e2 =>
      rw [hc] at h
      simp at h
      subst h
      exact partitionCheckLoop_error_msg pdict og.keys ts _ hc
    | ok b => rw [hc] at h; cases b <;> simp at h

lemma validate_input_partition_ok_ne_nil (og : EpacemsRaw) (t : String)
    (ts : List String) (d : List (String × Option String))
    (h : _validate_input_partition og (t :: ts) = .ok d) : d ≠ [] := by
  unfold _validate_input_partition at h
  cases hp : og.partition with
  | none => rw [hp] at h; simp at h; subst h; simp
  | some pdict =>
    rw [hp] at h
    dsimp only at h
    cases hc : partitionCheckLoop pdict og.keys (t :: ts) with
    | error e => rw [hc] at h; simp at h
    | ok b =>
      rw [hc] at h
      cases b with
      | false => simp at h; subst h; exact setA_ne_nil pdict "partition" none
      | true =>
        simp at h
        subst h
        intro hnil
        subst hnil
        unfold partitionCheckLoop at hc
        simp [lookupA] at hc

lemma validate_input_epacems_error_msg (pc : Constants) (raw : EpacemsRaw)
    (e : PyError) (h : _validate_input_epacems pc raw = .error e) :
    e = .assertionError "Partion not recognized" := by
  unfold _validate_input_epacems at h
  cases hp : _validate_input_partition raw [pc.epacems_tables] with
  | error e2 =>
    rw [hp] at h
    simp at h
    subst h
    exact validate_input_partition_error_msg raw _ _ hp
  | ok pdict =>
    rw [hp] at h
    dsimp only at h
    have hne : pdict ≠ [] := validate_input_partition_ok_ne_nil raw _ _ _ hp
    split at h
    · exfalso
      rename_i hcond
      simp at hcond
      exact hne hcond
    · split at h <;> simp at h

/-! ## Claim theorems -/

/-- C1: for every partition key processed by the EPA CEMS adapter, the
writer session opened for that partition's output table is released on
both the success and the failure path: for any outcome sequence of the
transformation collaborator (including one that raises mid-way through
the sub-chunks), the event trace of `_etl_epacems_part` opens exactly
one session — for the partition's table — as its first event and
releases exactly that session as its last event; a raised error still
propagates out as the result. -/
theorem c1_epacems_part_session_released {χ : Type} (part : PartKey)
    (chunkSeq : List (Except PyError (List χ))) :
    ((_etl_epacems_part part chunkSeq).1.filter isOpenEv =
      [WEvent.openS ("hourly_emissions_epacems_" ++ partToStr part)]) ∧
    ((_etl_epacems_part part chunkSeq).1.filter isReleaseEv =
      [WEvent.releaseS ("hourly_emissions_epacems_" ++ partToStr part)]) ∧
    ((_etl_epacems_part part chunkSeq).1.getLast? =
      some (WEvent.releaseS ("hourly_emissions_epacems_" ++ partToStr part))) ∧
    ((_etl_epacems_part part chunkSeq).1.head? =
      some (WEvent.openS ("hourly_emissions_epacems_" ++ partToStr part))) ∧
    ((_etl_epacems_part part chunkSeq).2 =
        Except.ok ("hourly_emissions_epacems_" ++ partToStr part) ∨
      ∃ e, (_etl_epacems_part part chunkSeq).2 = Except.error e ∧
        Except.error e ∈ chunkSeq) := by
  refine ⟨?_, ?_, ?_, ?_, ?_⟩
  · simp [_etl_epacems_part, List.filter_append, chunkAdds_filter_open, isOpenEv,
      isReleaseEv]
  · simp [_etl_epacems_part, List.filter_append, chunkAdds_filter_release, isOpenEv,
      isReleaseEv]
  · show (_ ++ chunkAdds chunkSeq ++ [WEvent.releaseS _]).getLast? = _
    rw [List.getLast?_concat]
  · rfl
  · show (match firstError chunkSeq with
      | some e => Except.error e
      | Option.none => Except.ok _) = _ ∨ ∃ e, (match firstError chunkSeq with
      | some e => Except.error e
      | Option.none => Except.ok _) = Except.error e ∧ Except.error e ∈ chunkSeq
    cases hf : firstError chunkSeq with
    | none => exact Or.inl rfl
    | some e => exact Or.inr ⟨e, rfl, firstError_mem chunkSeq e hf⟩

/-- C10: whenever `_validate_input_partition` returns without raising,
its result is a non-empty dict (with no `partition` entry in the raw
configuration it returns the dict with `partition` mapped to `None`),
so the falsiness check inside `_validate_input_epacems` never fires and
the "No partition found for EPA CEMS" `AssertionError` is unreachable
for every input. -/
theorem c10_partition_result_always_truthy (pc : Constants) (og : EpacemsRaw) :
    (∀ d, _validate_input_partition og [pc.epacems_tables] = .ok d → d ≠ []) ∧
    (og.partition = none →
      _validate_input_partition og [pc.epacems_tables] =
        .ok [("partition", Option.none)]) ∧
    (_validate_input_epacems pc og ≠
      .error (.assertionError
        ("No partition found for EPA CEMS. " ++
         "EPA CEMS requires either states or years as a partion"))) := by
  refine ⟨fun d h => validate_input_partition_ok_ne_nil og _ _ d h, ?_, ?_⟩
  · intro hp
    unfold _validate_input_partition
    rw [hp]
  · intro h
    have := validate_input_epacems_error_msg pc og _ h
    simp at this

/-- C3 (code bug witness): validating an EPA CEMS raw configuration in
which no partition dimension is resolvable (no `partition` entry at
all) does NOT raise: it returns a populated config whose `partition`
entry is the placeholder dict, although the claim (and the dead
`AssertionError` branch of the source) require a fatal configuration
error here. -/
theorem c3_no_partition_returns_config :
    _validate_input_epacems pcModel ⟨some [some 1995], some ["CO"], none⟩ =
      .ok (some ⟨[some 1995], ["CO"], [("partition", Option.none)]⟩) := by
  decide

/-- C4 (code bug witness): for every glue collaborator, running the
glue adapter with both the `eia` and `ferc1` flags false (explicitly or
by default) raises `KeyError: ferc1` — the validator returns the empty
dict and line 517 subscripts it — instead of returning cleanly with an
empty table collection (the string sentinel on line 520 is dead code). -/
theorem c4_glue_both_false_raises_keyerror
    (glueCollab : Bool → Bool → List String) :
    _etl_glue glueCollab ⟨some false, some false⟩ =
      ([], .error (.keyError "ferc1")) ∧
    _etl_glue glueCollab ⟨none, none⟩ = ([], .error (.keyError "ferc1")) := by
  exact ⟨rfl, rfl⟩

/-- C10 witness: the theorem instantiated at the empty raw
configuration, whose partition result is the concrete truthy dict. -/
theorem c10_witness :
    ([("partition", (Option.none : Option String))] ≠
      ([] : List (String × Option String))) ∧
    (_validate_input_partition ⟨none, none, none⟩ ["hourly_emissions_epacems"] =
      .ok [("partition", Option.none)]) := by
  have h := c10_partition_result_always_truthy pcModel ⟨none, none, none⟩
  exact ⟨h.1 _ (by decide), h.2.1 rfl⟩

/-- C2: for the EIA kind, year inference is bidirectional: validating a
raw configuration with eia860_years = [2018] and no eia923 years yields
a config with eia923_years = [2018] and eia923_tables equal to the
fixed minimal companion subset; symmetrically, validating a raw
configuration with eia923_years = [2018] and no eia860 years yields a
config with eia860_years = [2018].  (Hypotheses: 2018 is a working year
for both forms, the minimal companion subset lies in the EIA-923 table
universe, and the default table lists lie in their universes.) -/
theorem c2_eia_bidirectional_year_inference (pc : Constants)
    (h860y : (2018 : Int) ∈ pc.working_years_eia860)
    (h923y : (2018 : Int) ∈ pc.working_years_eia923)
    (hbf : "boiler_fuel_eia923" ∈ pc.eia923_pudl_tables)
    (hgen : "generation_eia923" ∈ pc.eia923_pudl_tables)
    (hd860 : ∀ t ∈ pc.pudl_tables_eia860, t ∈ pc.eia860_pudl_tables)
    (hd923 : ∀ t ∈ pc.pudl_tables_eia923, t ∈ pc.eia923_pudl_tables) :
    _validate_input_eia pc ⟨some [2018], none, none, none, none⟩ =
      .ok (some ⟨[2018], pc.pudl_tables_eia860, [2018],
        ["boiler_fuel_eia923", "generation_eia923"]⟩) ∧
    _validate_input_eia pc ⟨none, none, some [2018], none, none⟩ =
      .ok (some ⟨[2018], pc.pudl_tables_eia860, [2018],
        pc.pudl_tables_eia923⟩) := by
  have f860 : List.find? (fun t => !decide (t ∈ pc.eia860_pudl_tables))
      pc.pudl_tables_eia860 = none := by
    rw [List.find?_eq_none]
    intro x hx
    simpa using hd860 x hx
  have f923 : List.find? (fun t => !decide (t ∈ pc.eia923_pudl_tables))
      pc.pudl_tables_eia923 = none := by
    rw [List.find?_eq_none]
    intro x hx
    simpa using hd923 x hx
  constructor
  · simp only [_validate_input_eia, eiaResolve]
    simp [List.find?_eq_none, h860y, h923y, hbf, hgen]
    rw [f860]
  · simp only [_validate_input_eia, eiaResolve]
    simp [List.find?_eq_none, h860y, h923y, hbf, hgen]
    rw [f860, f923]

/-- C2 witness: the theorem instantiated at the concrete constants
registry. -/
theorem c2_witness :
    _validate_input_eia pcModel ⟨some [2018], none, none, none, none⟩ =
      .ok (some ⟨[2018], pcModel.pudl_tables_eia860, [2018],
        ["boiler_fuel_eia923", "generation_eia923"]⟩) ∧
    _validate_input_eia pcModel ⟨none, none, some [2018], none, none⟩ =
      .ok (some ⟨[2018], pcModel.pudl_tables_eia860, [2018],
        pcModel.pudl_tables_eia923⟩) :=
  c2_eia_bidirectional_year_inference pcModel (by decide) (by decide)
    (by decide) (by decide) (by decide) (by decide)

/-- C5 counterexample: the claim fails on the EPA IPM kind.  Validating
the raw configuration with `epaipm_tables = []` — the only dimension
that matters for this kind, fully resolved to empty — yields the truthy
one-key config dict, not the falsy "not requested" skip signal. -/
theorem c5_counterexample :
    _validate_input_epaipm ⟨some []⟩ = ⟨[]⟩ ∧
    EpaipmConfig.truthy (_validate_input_epaipm ⟨some []⟩) = true :=
  ⟨rfl, rfl⟩

/-- C5 (amended): validating the empty raw configuration yields a
fully-defaulted config or the skip signal for each of the five kinds;
and the skip-on-empty-dimension rule holds for the eia kind (both year
lists), the ferc1 kind (years), the epacems kind (years or states) and
the glue kind (both flags) — each returns the skip signal or raises,
never a populated config — but NOT for the epaipm kind, whose validator
always returns the truthy one-key dict. -/
theorem c5_amended_skip_behaviour (pc : Constants)
    (rawE : EiaRaw) (rawF : Ferc1Raw) (rawC : EpacemsRaw) (rawI : EpaipmRaw)
    (rawG : GlueRaw)
    (hd860 : ∀ t ∈ pc.pudl_tables_eia860, t ∈ pc.eia860_pudl_tables)
    (hd923 : ∀ t ∈ pc.pudl_tables_eia923, t ∈ pc.eia923_pudl_tables)
    (hdf : ∀ t ∈ pc.pudl_tables_ferc1, t ∈ pc.ferc1_pudl_tables) :
    _validate_input_eia pc ⟨none, none, none, none, none⟩ = .ok none ∧
    _validate_input_ferc1 pc ⟨none, none, none, none⟩ =
      .ok (some ⟨[Option.none], pc.pudl_tables_ferc1, false, false⟩) ∧
    _validate_input_epacems pc ⟨none, none, none⟩ = .ok none ∧
    _validate_input_epaipm ⟨none⟩ = ⟨[Option.none]⟩ ∧
    _validate_input_glue ⟨none, none⟩ = none ∧
    (rawE.eia860_years.getD [] = [] → rawE.eia923_years.getD [] = [] →
      ∀ cfg, _validate_input_eia pc rawE ≠ .ok (some cfg)) ∧
    (rawF.ferc1_years = some [] →
      ∀ cfg, _validate_input_ferc1 pc rawF ≠ .ok (some cfg)) ∧
    ((rawC.epacems_years = some [] ∨ rawC.epacems_states.getD [] = []) →
      ∀ cfg, _validate_input_epacems pc rawC ≠ .ok (some cfg)) ∧
    (rawG.ferc1.getD false = false → rawG.eia.getD false = false →
      _validate_input_glue rawG = none) ∧
    EpaipmConfig.truthy (_validate_input_epaipm rawI) = true := by
  have f860 : List.find? (fun t => !decide (t ∈ pc.eia860_pudl_tables))
      pc.pudl_tables_eia860 = none := by
    rw [List.find?_eq_none]; intro x hx; simpa using hd860 x hx
  have f923 : List.find? (fun t => !decide (t ∈ pc.eia923_pudl_tables))
      pc.pudl_tables_eia923 = none := by
    rw [List.find?_eq_none]; intro x hx; simpa using hd923 x hx
  have ff : List.find? (fun t => !decide (t ∈ pc.ferc1_pudl_tables))
      pc.pudl_tables_ferc1 = none := by
    rw [List.find?_eq_none]; intro x hx; simpa using hdf x hx
  refine ⟨?_, ?_, rfl, rfl, rfl, ?_, ?_, ?_, ?_, rfl⟩
  · simp only [_validate_input_eia, eiaResolve]
    simp
    rw [f860, f923]
  · simp only [_validate_input_ferc1]
    simp
    rw [ff]
  · intro h1 h2 cfg hc
    simp only [_validate_input_eia, eiaResolve, h1, h2] at hc
    simp at hc
    split at hc <;> simp_all
    split at hc <;> simp_all
  · intro h1 cfg hc
    simp only [_validate_input_ferc1, h1] at hc
    simp at hc
    split at hc <;> simp_all
    split at hc <;> simp_all
  · intro h1 cfg hc
    rcases h1 with h1 | h1 <;>
      simp only [_validate_input_epacems, h1] at hc <;> simp at hc <;>
      (try split at hc <;> simp_all) <;>
      (try split at hc <;> simp_all)
  · intro h1 h2
    simp [_validate_input_glue, h1, h2]

/-- C5 witness: the amended claim instantiated at the concrete
constants registry and explicit empty-dimension configurations. -/
theorem c5_witness :
    _validate_input_eia pcModel ⟨none, none, none, none, none⟩ = .ok none ∧
    _validate_input_eia pcModel ⟨some [], none, none, none, none⟩ ≠
      .ok (some ⟨[], pcModel.pudl_tables_eia860, [],
        pcModel.pudl_tables_eia923⟩) ∧
    _validate_input_ferc1 pcModel ⟨some [], none, none, none⟩ ≠
      .ok (some ⟨[], pcModel.pudl_tables_ferc1, false, false⟩) ∧
    _validate_input_epacems pcModel ⟨some [], none, none⟩ ≠
      .ok (some ⟨[], [], [("partition", Option.none)]⟩) ∧
    _validate_input_glue ⟨none, none⟩ = none := by
  have h := c5_amended_skip_behaviour pcModel
    ⟨some [], none, none, none, none⟩ ⟨some [], none, none, none⟩
    ⟨some [], none, none⟩ ⟨some []⟩ ⟨none, none⟩
    (by decide) (by decide) (by decide)
  exact ⟨h.1, h.2.2.2.2.2.1 rfl rfl _, h.2.2.2.2.2.2.1 rfl _,
    h.2.2.2.2.2.2.2.1 (Or.inl rfl) _, h.2.2.2.2.1⟩

/-- C6 counterexample: the claim fails as stated.  The eia kind has no
debug relaxation at all: validating an eia raw configuration that is in
debug mode (`debug: True`) and requests the unrecognized table
`bogus_table` still raises, although the claim says debug mode
suppresses table validation errors; and the epaipm validator accepts
any table without consulting any universe, although the claim says an
out-of-universe table raises a fatal ConfigError. -/
theorem c6_counterexample :
    _validate_input_eia pcModel
        ⟨some [2018], some ["bogus_table"], none, none, some true⟩ =
      .error (.assertionError "Unrecognized EIA 860 table: bogus_table") ∧
    "bogus_table" ∉ pcModel.eia860_pudl_tables ∧
    _validate_input_epaipm ⟨some [some "bogus_table"]⟩ =
      ⟨[some "bogus_table"]⟩ := by
  refine ⟨by decide, by decide, rfl⟩

/-- C6 (amended): universe validation is per-kind.  The eia validator
admits only in-universe tables and years (soundness of success) and
ignores the debug key entirely; the ferc1 validator admits only
in-universe tables when debug is false and never raises when debug is
true; the epacems validator raises no universe error (its only error is
the partition AssertionError); the epaipm and glue validators validate
nothing and never raise. -/
theorem c6_amended_universe_validation (pc : Constants) (rawE : EiaRaw)
    (b : Option Bool) (rawF : Ferc1Raw) (rawC : EpacemsRaw) (rawI : EpaipmRaw)
    (rawG : GlueRaw) :
    (∀ cfg, _validate_input_eia pc rawE = .ok (some cfg) →
      (∀ t ∈ cfg.eia860_tables, t ∈ pc.eia860_pudl_tables) ∧
      (∀ t ∈ cfg.eia923_tables, t ∈ pc.eia923_pudl_tables) ∧
      (∀ y ∈ cfg.eia860_years, y ∈ pc.working_years_eia860) ∧
      (∀ y ∈ cfg.eia923_years, y ∈ pc.working_years_eia923)) ∧
    (_validate_input_eia pc ⟨rawE.eia860_years, rawE.eia860_tables,
        rawE.eia923_years, rawE.eia923_tables, b⟩ =
      _validate_input_eia pc rawE) ∧
    (∀ cfg, _validate_input_ferc1 pc rawF = .ok (some cfg) → cfg.debug = false →
      ∀ t ∈ cfg.ferc1_tables, t ∈ pc.ferc1_pudl_tables) ∧
    (rawF.debug = some true → ∀ e, _validate_input_ferc1 pc rawF ≠ .error e) ∧
    (∀ e, _validate_input_epacems pc rawC = .error e →
      e = .assertionError "Partion not recognized") ∧
    (_validate_input_epaipm rawI = ⟨rawI.epaipm_tables.getD [Option.none]⟩) ∧
    (_validate_input_glue rawG =
      if !(rawG.ferc1.getD false) && !(rawG.eia.getD false) then none
      else some ⟨rawG.ferc1.getD false, rawG.eia.getD false⟩) := by
  refine ⟨?_, ?_, ?_, ?_, ?_, ?_, ?_⟩
  · intro cfg hc
    simp only [_validate_input_eia] at hc
    generalize hR : eiaResolve pc rawE = R at hc
    split at hc <;> try exact Except.noConfusion hc
    split at hc <;> try exact Except.noConfusion hc
    split at hc <;> try exact Except.noConfusion hc
    split at hc <;> try exact Except.noConfusion hc
    split at hc
    · simp at hc
    · simp only [List.find?_eq_none] at *
      injection hc with h
      injection h with h2
      subst h2
      refine ⟨fun t ht => ?_, fun t ht => ?_, fun y hy => ?_, fun y hy => ?_⟩ <;>
        simp_all
  · cases rawE
    rfl
  · intro cfg hc hdbg
    simp only [_validate_input_ferc1] at hc
    split at hc
    · split at hc <;> try exact Except.noConfusion hc
      split at hc
      · simp at hc
      · injection hc with h
        injection h with h2
        subst h2
        rename_i hf hyrs
        rw [List.find?_eq_none] at hf
        intro t ht
        simpa using hf t ht
    · split at hc
      · simp at hc
      · injection hc with h
        injection h with h2
        subst h2
        rename_i hcond hyrs
        simp at hcond
        simp [hcond] at hdbg
  · intro hdbg e hc
    simp only [_validate_input_ferc1, hdbg] at hc
    simp at hc
    split at hc <;> simp_all
  · exact fun e hc => validate_input_epacems_error_msg pc rawC e hc
  · cases rawI
    rfl
  · cases rawG
    rfl

/-- C6 witness: the amended claim instantiated at the concrete
constants registry; the implications are discharged at concrete
successful and failing validations. -/
theorem c6_witness :
    "boilers_eia860" ∈ pcModel.eia860_pudl_tables ∧
    _validate_input_eia pcModel ⟨some [2018], none, none, none, some true⟩ =
      _validate_input_eia pcModel ⟨some [2018], none, none, none, none⟩ ∧
    "fuel_ferc1" ∈ pcModel.ferc1_pudl_tables ∧
    _validate_input_ferc1 pcModel ⟨none, some ["mystery_table"], none, some true⟩ ≠
      .error (.assertionError "Unrecognized FERC table: mystery_table.") ∧
    PyError.assertionError "Partion not recognized" =
      PyError.assertionError "Partion not recognized" := by
  have h1 := c6_amended_universe_validation pcModel
    ⟨some [2018], none, none, none, none⟩ (some true)
    ⟨none, some ["mystery_table"], none, some true⟩
    ⟨some [some 1995], some ["CO"],
      some [("hourly_emissions_epacems", some "bogus_field")]⟩
    ⟨none⟩ ⟨none, none⟩
  have h2 := c6_amended_universe_validation pcModel
    ⟨some [2018], none, none, none, none⟩ none
    ⟨none, none, none, none⟩ ⟨none, none, none⟩ ⟨none⟩ ⟨none, none⟩
  refine ⟨?_, h1.2.1, ?_, h1.2.2.2.1 rfl _, h1.2.2.2.2.1 _ (by decide)⟩
  · exact (h1.1 ⟨[2018], pcModel.pudl_tables_eia860, [2018],
      ["boiler_fuel_eia923", "generation_eia923"]⟩ (by decide)).1
      "boilers_eia860" (by decide)
  · exact h2.2.2.1 ⟨[Option.none], pcModel.pudl_tables_ferc1, false, false⟩
      (by decide) rfl "fuel_ferc1" (by decide)

lemma mem_part_trace_open {χ : Type} (part : PartKey)
    (cs : List (Except PyError (List χ))) (ev : WEvent χ)
    (hev : ev ∈ (_etl_epacems_part part cs).1) (hop : isOpenEv ev = true) :
    ev = WEvent.openS ("hourly_emissions_epacems_" ++ partToStr part) := by
  simp only [_etl_epacems_part] at hev
  simp at hev
  rcases hev with rfl | hev | rfl
  · rfl
  · exfalso
    have hnil := chunkAdds_filter_open cs
    rw [List.filter_eq_nil_iff] at hnil
    exact absurd hop (by simpa using hnil ev hev)
  · simp [isOpenEv] at hop

lemma open_mem_part_trace {χ : Type} (part : PartKey)
    (cs : List (Except PyError (List χ))) :
    WEvent.openS ("hourly_emissions_epacems_" ++ partToStr part) ∈
      (_etl_epacems_part part cs).1 := by
  simp [_etl_epacems_part]

lemma epacemsPartsLoop_open_events {χ : Type}
    (collab : PartKey → List String → List (Except PyError (List χ))) :
    ∀ (parts : List PartKey) (ys : List (Option Int)) (ss : List String),
      ∀ ev ∈ (epacemsPartsLoop collab parts ys ss).1, isOpenEv ev = true →
        ∃ p : PartKey,
          ev = WEvent.openS ("hourly_emissions_epacems_" ++ partToStr p)
  | [], ys, ss => by
    intro ev hev
    simp [epacemsPartsLoop] at hev
  | part :: rest, ys, ss => by
    intro ev hev hop
    simp only [epacemsPartsLoop] at hev
    rcases hres : (_etl_epacems_part part
        (collab part (narrowStates part ss))).2 with e | tn <;>
      rw [hres] at hev <;> simp only at hev
    · exact ⟨part, mem_part_trace_open part _ ev hev hop⟩
    · rcases List.mem_append.mp hev with hev1 | hev2
      · exact ⟨part, mem_part_trace_open part _ ev hev1 hop⟩
      · exact epacemsPartsLoop_open_events collab rest
          (narrowYears part ys) (narrowStates part ss) ev hev2 hop

lemma epacemsPartsLoop_first_open {χ : Type}
    (collab : PartKey → List String → List (Except PyError (List χ)))
    (part : PartKey) (rest : List PartKey) (ys : List (Option Int))
    (ss : List String) :
    ∃ p : PartKey,
      WEvent.openS ("hourly_emissions_epacems_" ++ partToStr p) ∈
        (epacemsPartsLoop collab (part :: rest) ys ss).1 := by
  refine ⟨part, ?_⟩
  simp only [epacemsPartsLoop]
  rcases hres : (_etl_epacems_part part
      (collab part (narrowStates part ss))).2 with e | tn <;> dsimp only
  · exact open_mem_part_trace part _
  · exact List.mem_append_left _ (open_mem_part_trace part _)
/-- C7: every run of the EPA CEMS adapter that processes at least one
partition key (non-empty writer trace) reports to its caller exactly
the single aggregate table name, even though every writer session it
opened is for a per-partition physical table name
`hourly_emissions_epacems_<partition>`. -/
theorem c7_epacems_reports_aggregate_name {χ : Type} (pc : Constants)
    (collab : PartKey → List String → List (Except PyError (List χ)))
    (raw : EpacemsRaw) (tr : List (WEvent χ)) (tbls : List String)
    (h : _etl_epacems_pkg pc collab raw = (tr, .ok tbls)) (hne : tr ≠ []) :
    tbls = ["hourly_emissions_epacems"] ∧
    (∀ ev ∈ tr, isOpenEv ev = true →
      ∃ p : PartKey,
        ev = WEvent.openS ("hourly_emissions_epacems_" ++ partToStr p)) ∧
    (∃ p : PartKey,
      WEvent.openS ("hourly_emissions_epacems_" ++ partToStr p) ∈ tr) := by
  unfold _etl_epacems_pkg at h
  cases hval : _validate_input_epacems pc raw with
  | error e => rw [hval] at h; simp at h
  | ok oc =>
    rw [hval] at h
    cases oc with
    | none => simp at h
    | some cfg =>
      dsimp only at h
      by_cases hskip : (cfg.epacems_states.isEmpty || cfg.epacems_years.isEmpty) = true
      · rw [if_pos hskip] at h
        simp at h
        exact absurd h.1 hne
      · rw [if_neg hskip] at h
        cases hlk : lookupA cfg.partition pc.epacems_tables with
        | none => rw [hlk] at h; simp at h
        | some v =>
          rw [hlk] at h
          cases v with
          | none => simp at h
          | some field =>
            dsimp only at h
            cases hps : epacemsParts cfg field with
            | none => rw [hps] at h; simp at h
            | some parts =>
              rw [hps] at h
              dsimp only at h
              cases hloop : (epacemsPartsLoop collab parts cfg.epacems_years
                  cfg.epacems_states).2 with
              | some e => rw [hloop] at h; simp at h
              | none =>
                rw [hloop] at h
                dsimp only at h
                have h1 : (epacemsPartsLoop collab parts cfg.epacems_years
                    cfg.epacems_states).1 = tr := congrArg Prod.fst h
                have h2 : tbls = ["hourly_emissions_epacems"] := by
                  have := congrArg Prod.snd h
                  simp at this
                  exact this.symm
                refine ⟨h2, ?_, ?_⟩
                · intro ev hev hop
                  rw [← h1] at hev
                  exact epacemsPartsLoop_open_events collab parts _ _ ev hev hop
                · cases parts with
                  | nil =>
                    exfalso
                    apply hne
                    rw [← h1]
                    rfl
                  | cons part rest =>
                    obtain ⟨p, hp⟩ := epacemsPartsLoop_first_open collab part
                      rest cfg.epacems_years cfg.epacems_states
                    exact ⟨p, h1 ▸ hp⟩

/-- C7 witness: a concrete one-partition run (year partition 1995, one
sub-chunk), with the run equation discharged by evaluation. -/
theorem c7_witness :
    _etl_epacems_pkg (χ := Nat) pcModel (fun _ _ => [Except.ok [0]])
        ⟨some [some 1995], some ["CO"],
          some [("hourly_emissions_epacems", some "epacems_years")]⟩ =
      ([WEvent.openS "hourly_emissions_epacems_1995", WEvent.addC 0,
        WEvent.releaseS "hourly_emissions_epacems_1995"],
       .ok ["hourly_emissions_epacems"]) ∧
    (["hourly_emissions_epacems"] : List String) =
      ["hourly_emissions_epacems"] := by
  have hrun : _etl_epacems_pkg (χ := Nat) pcModel (fun _ _ => [Except.ok [0]])
      ⟨some [some 1995], some ["CO"],
        some [("hourly_emissions_epacems", some "epacems_years")]⟩ =
      ([WEvent.openS "hourly_emissions_epacems_1995", WEvent.addC 0,
        WEvent.releaseS "hourly_emissions_epacems_1995"],
       .ok ["hourly_emissions_epacems"]) := by decide
  exact ⟨hrun, (c7_epacems_reports_aggregate_name pcModel _ _ _ _ hrun (by decide)).1⟩

/-- C8 counterexample: a ferc1 dataset that is active in the package
(its validator returns a truthy, populated config) but requests no
dynamic tables (`ferc1_tables: []`): the adapter returns `[]` without
emitting any write — the static reference tables are NOT materialized
and their names are NOT included, contrary to the claim. -/
theorem c8_counterexample :
    _validate_input_ferc1 pcModel ⟨none, some [], none, none⟩ =
      .ok (some ⟨[Option.none], [], false, false⟩) ∧
    _etl_ferc1_pkg pcModel (fun ts _ _ => ts) ⟨none, some [], none, none⟩ =
      ([], .ok []) := by
  exact ⟨by decide, by decide⟩

/-- C8 (amended): the eia and ferc1 adapters materialize their static
reference tables and include their names in the returned table list
only when the dynamic request is non-degenerate (ferc1: resolved years
and tables both non-empty; eia: at least one form with tables and years
both non-empty); when the dynamic request is degenerate the adapter
returns an empty table list without writing anything, static tables
included. -/
theorem c8_amended_static_tables (pc : Constants)
    (fc : List String → List (Option Int) → Bool → List String)
    (rawF : Ferc1Raw)
    (e923 e860 : List String → List Int → List String)
    (hv : List String → List Int → List Int → List String × List String)
    (rawE : EiaRaw) :
    (∀ cfg, _validate_input_ferc1 pc rawF = .ok (some cfg) →
      ((cfg.ferc1_years = [] ∨ cfg.ferc1_tables = []) →
        _etl_ferc1_pkg pc fc rawF = ([], .ok [])) ∧
      (cfg.ferc1_years ≠ [] → cfg.ferc1_tables ≠ [] →
        DumpEvent.dump "Static FERC Tables"
            ["ferc_accounts", "ferc_depreciation_lines"] ∈
          (_etl_ferc1_pkg pc fc rawF).1 ∧
        ∃ tbls, (_etl_ferc1_pkg pc fc rawF).2 = .ok tbls ∧
          "ferc_accounts" ∈ tbls ∧ "ferc_depreciation_lines" ∈ tbls)) ∧
    (∀ cfg, _validate_input_eia pc rawE = .ok (some cfg) →
      (((cfg.eia923_tables = [] ∨ cfg.eia923_years = []) ∧
        (cfg.eia860_tables = [] ∨ cfg.eia860_years = [])) →
        _etl_eia_pkg pc e923 e860 hv rawE = ([], .ok [])) ∧
      (¬((cfg.eia923_tables = [] ∨ cfg.eia923_years = []) ∧
         (cfg.eia860_tables = [] ∨ cfg.eia860_years = [])) →
        DumpEvent.dump "Static EIA Tables"
            ["fuel_type_eia923", "prime_movers_eia923", "fuel_type_aer_eia923",
             "energy_source_eia923", "transport_modes_eia923"] ∈
          (_etl_eia_pkg pc e923 e860 hv rawE).1 ∧
        ∃ tbls, (_etl_eia_pkg pc e923 e860 hv rawE).2 = .ok tbls ∧
          "fuel_type_eia923" ∈ tbls ∧ "transport_modes_eia923" ∈ tbls)) := by
  constructor
  · intro cfg hval
    constructor
    · intro hdeg
      simp only [_etl_ferc1_pkg, hval]
      rcases hdeg with hd | hd <;> simp [hd]
    · intro h1 h2
      simp only [_etl_ferc1_pkg, hval]
      have hcond : (cfg.ferc1_years.isEmpty || cfg.ferc1_tables.isEmpty) = false := by
        simp [List.isEmpty_iff, h1, h2]
      rw [hcond]
      simp [_load_static_tables_ferc]
  · intro cfg hval
    constructor
    · intro hdeg
      simp only [_etl_eia_pkg, hval]
      have hcond : ((cfg.eia923_tables.isEmpty || cfg.eia923_years.isEmpty) &&
          (cfg.eia860_tables.isEmpty || cfg.eia860_years.isEmpty)) = true := by
        rcases hdeg with ⟨h1 | h1, h2 | h2⟩ <;> simp [h1, h2]
      rw [hcond]
      simp
    · intro hdeg
      simp only [_etl_eia_pkg, hval]
      have hcond : ((cfg.eia923_tables.isEmpty || cfg.eia923_years.isEmpty) &&
          (cfg.eia860_tables.isEmpty || cfg.eia860_years.isEmpty)) = false := by
        rw [Bool.and_eq_false_iff]
        by_contra hcon
        push_neg at hcon
        obtain ⟨ha, hb⟩ := hcon
        rw [Bool.ne_false_iff] at ha hb
        rw [Bool.or_eq_true_iff] at ha hb
        apply hdeg
        constructor
        · rcases ha with ha | ha
          · exact Or.inl (List.isEmpty_iff.mp ha)
          · exact Or.inr (List.isEmpty_iff.mp ha)
        · rcases hb with hb | hb
          · exact Or.inl (List.isEmpty_iff.mp hb)
          · exact Or.inr (List.isEmpty_iff.mp hb)
      rw [hcond]
      simp [_load_static_tables_eia]

/-- C8 witness: the amended claim discharged at a degenerate ferc1
config, a defaulted ferc1 config and a populated eia config. -/
theorem c8_witness :
    _etl_ferc1_pkg pcModel (fun ts _ _ => ts) ⟨none, some [], none, none⟩ =
      ([], .ok []) ∧
    DumpEvent.dump "Static FERC Tables"
        ["ferc_accounts", "ferc_depreciation_lines"] ∈
      (_etl_ferc1_pkg pcModel (fun ts _ _ => ts) ⟨none, none, none, none⟩).1 ∧
    DumpEvent.dump "Static EIA Tables"
        ["fuel_type_eia923", "prime_movers_eia923", "fuel_type_aer_eia923",
         "energy_source_eia923", "transport_modes_eia923"] ∈
      (_etl_eia_pkg pcModel (fun ts _ => ts) (fun ts _ => ts)
        (fun m _ _ => ([], m)) ⟨some [2018], none, none, none, none⟩).1 := by
  have hA := c8_amended_static_tables pcModel (fun ts _ _ => ts)
    ⟨none, some [], none, none⟩ (fun ts _ => ts) (fun ts _ => ts)
    (fun m _ _ => ([], m)) ⟨some [2018], none, none, none, none⟩
  have hB := c8_amended_static_tables pcModel (fun ts _ _ => ts)
    ⟨none, none, none, none⟩ (fun ts _ => ts) (fun ts _ => ts)
    (fun m _ _ => ([], m)) ⟨some [2018], none, none, none, none⟩
  refine ⟨(hA.1 ⟨[Option.none], [], false, false⟩ (by decide)).1 (Or.inr rfl),
    ((hB.1 ⟨[Option.none], pcModel.pudl_tables_ferc1, false, false⟩
      (by decide)).2 (by decide) (by decide)).1,
    ((hB.2 ⟨[2018], pcModel.pudl_tables_eia860, [2018],
        ["boiler_fuel_eia923", "generation_eia923"]⟩ (by decide)).2
      (by decide)).1⟩

lemma etlPkgLoop_trace {α : Type}
    (f1 f2 f3 f4 f5 : α → Except PyError (List String)) :
    ∀ (ds : List (String × α)) (tr0 tbl0 tr tbls : List String),
      etlPkgLoop f1 f2 f3 f4 f5 ds tr0 tbl0 = (tr, .ok tbls) →
      tr = tr0 ++ ds.map Prod.fst
  | [], tr0, tbl0, tr, tbls => by
    intro h
    simp only [etlPkgLoop, Prod.mk.injEq] at h
    simp [← h.1]
  | (kind, p) :: rest, tr0, tbl0, tr, tbls => by
    intro h
    simp only [etlPkgLoop] at h
    split at h
    · split at h
      · simp at h
      · have := etlPkgLoop_trace f1 f2 f3 f4 f5 rest (tr0 ++ [kind]) _ tr tbls h
        simpa using this
    · simp at h

/-- C9 counterexample: two package configurations with the same dataset
entries (a permutation of one another) are dispatched in different
orders — the coordinator follows the insertion order of the entries,
not a fixed enumeration order of kinds. -/
theorem c9_counterexample :
    ([("glue", ()), ("epaipm", ())] : List (String × Unit)).Perm
      [("epaipm", ()), ("glue", ())] ∧
    (etl_pkg (fun _ => .ok []) (fun _ => .ok []) (fun _ => .ok [])
        (fun _ => .ok []) (fun _ => .ok [])
        ([("glue", ()), ("epaipm", ())] : List (String × Unit))).1 ≠
    (etl_pkg (fun _ => .ok []) (fun _ => .ok []) (fun _ => .ok [])
        (fun _ => .ok []) (fun _ => .ok [])
        ([("epaipm", ()), ("glue", ())] : List (String × Unit))).1 := by
  exact ⟨List.Perm.swap _ _ _, by decide⟩

/-- C9 (amended): the package coordinator dispatches the datasets of a
package in the insertion order of the configuration entries: for every
run that completes without error, the invocation trace is exactly the
list of dataset keys in configuration order. -/
theorem c9_amended_insertion_order {α : Type}
    (f1 f2 f3 f4 f5 : α → Except PyError (List String))
    (ds : List (String × α)) (tr tbls : List String)
    (h : etl_pkg f1 f2 f3 f4 f5 ds = (tr, .ok tbls)) :
    tr = ds.map Prod.fst := by
  have := etlPkgLoop_trace f1 f2 f3 f4 f5 ds [] [] tr tbls h
  simpa using this

/-- C9 witness: the amended claim discharged at a concrete two-dataset
package. -/
theorem c9_witness :
    (["glue", "epaipm"] : List String) =
      ([("glue", ()), ("epaipm", ())] : List (String × Unit)).map Prod.fst := by
  exact c9_amended_insertion_order (fun _ => .ok []) (fun _ => .ok []) (fun _ => .ok [])
    (fun _ => .ok []) (fun _ => .ok []) [("glue", ()), ("epaipm", ())]
    ["glue", "epaipm"] [] (by decide)

end Pudl
